import Mathlib

/-!
# Verification of the StackCast CLOB server core

A shallow embedding, in Lean 4, of the order store, matching engine, smart
router, settlement bridge, signature-hash front end and block-height monitor
of the StackCast prediction-market server, together with proofs about the
embedded operations.

Conventions of the embedding:

* JavaScript numbers on the matching / storage paths are integers in the
  source (micro-sat prices, token sizes, block heights, millisecond
  timestamps); they are embedded as `Int`.  The smart router additionally
  divides (average price, slippage percentage); its arithmetic is embedded
  as `Rat` (exact rationals; the source's float rounding does not affect any
  value considered here).
* Redis is embedded as an explicit `Store` value threaded through the
  operations: a list of order records, a set of sorted-book memberships
  (book key, order id) and a list of markets.  Pipelines/multi blocks are
  atomic in the source, hence simple functional updates here.  The per-order
  lock of `fillOrder` always succeeds in this single-threaded embedding.
* `Array.prototype.sort` (stable since ES2019) is embedded as a stable
  insertion sort with the source's comparator turned into a boolean
  "comes not after" relation; for a total preorder the stable sort result
  is unique, so this agrees with the engine's merge-style sort.
* Random identifiers (`order_…`, `trade_…`) are embedded as caller-supplied
  strings resp. sequence numbers; `Date.now()` as an explicit `now : Int`
  argument.
-/

namespace StackCast

/-- Order side, from `types/order`: `BUY` or `SELL`. -/
inductive OrderSide where
  | BUY
  | SELL
deriving DecidableEq, Repr

/-- Order status, from `types/order`. -/
inductive OrderStatus where
  | OPEN
  | PARTIALLY_FILLED
  | FILLED
  | CANCELLED
  | EXPIRED
deriving DecidableEq, Repr

/-- Trade type, from `types/order`: NORMAL swap, MINT of a YES+NO pair,
MERGE of a pair back to collateral. -/
inductive TradeType where
  | NORMAL
  | MINT
  | MERGE
deriving DecidableEq, Repr

/-- Order record, from `types/order`.  `salt` is a plain string (the source
allows non-numeric salts to be stored; numeric validation happens in
`computeOrderHash`).  `signature`/`publicKey` are optional hex strings. -/
structure Order where
  orderId : String
  maker : String
  marketId : String
  conditionId : String
  makerPositionId : String
  takerPositionId : String
  side : OrderSide
  price : Int
  size : Int
  filledSize : Int
  remainingSize : Int
  status : OrderStatus
  salt : String
  expiration : Int
  createdAt : Int
  updatedAt : Int
  signature : Option String
  publicKey : Option String
deriving DecidableEq, Repr

/-- Market record, from `types/order` (fields used by the embedded code). -/
structure Market where
  marketId : String
  conditionId : String
  yesPositionId : String
  noPositionId : String
  yesPrice : Int
  noPrice : Int
  resolved : Bool
deriving DecidableEq, Repr

/-- Trade record created by `MatchingEngine.createTrade`.  `tradeId` is the
random string id embedded as a sequence number; the wall-clock `timestamp`
and the settlement `txHash` attached after broadcast are not modelled. -/
structure Trade where
  tradeId : Nat
  marketId : String
  conditionId : String
  makerPositionId : String
  takerPositionId : String
  maker : String
  taker : String
  price : Int
  size : Int
  side : OrderSide
  makerOrderId : String
  takerOrderId : String
  tradeType : TradeType
deriving DecidableEq, Repr

/-- Key of one Redis sorted-set book:
`orderbook:{marketId}:{positionId}:{side}`. -/
structure BookKey where
  marketId : String
  positionId : String
  side : OrderSide
deriving DecidableEq, Repr

/-- The hot store: order records, sorted-book membership entries
(key, orderId), and the market set. -/
structure Store where
  orders : List Order
  books : List (BookKey × String)
  markets : List Market
deriving DecidableEq, Repr

/-- Embeds `orderManagerRedis.resolveBookPositionId`: the outcome token a book is
about — a BUY order books under its `takerPositionId`, a SELL order under
its `makerPositionId`. -/
def resolveBookPositionId (o : Order) : String :=
  match o.side with
  | OrderSide.BUY => o.takerPositionId
  | OrderSide.SELL => o.makerPositionId

/-- Embeds `orderManagerRedis.getOrderbookKey` (primary book key). -/
def getOrderbookKey (o : Order) : BookKey :=
  { marketId := o.marketId, positionId := resolveBookPositionId o, side := o.side }

/-- Embeds `orderManagerRedis.getLegacyOrderbookKey`: legacy revisions booked both
sides under `makerPositionId`. -/
def getLegacyOrderbookKey (o : Order) : BookKey :=
  { marketId := o.marketId, positionId := o.makerPositionId, side := o.side }

/-- Embeds `redis.hgetall order:{id}` followed by `parseOrder`: first record with
the given id. -/
def Store.getOrder (st : Store) (orderId : String) : Option Order :=
  st.orders.find? (fun o => o.orderId = orderId)

/-- Embeds `getMarketOrders`: all records indexed under `market:{id}:orders`. -/
def Store.getMarketOrders (st : Store) (marketId : String) : List Order :=
  st.orders.filter (fun o => o.marketId = marketId)

/-- Embeds `zrem bookKey orderId` on the membership set. -/
def remBook (books : List (BookKey × String)) (key : BookKey) (orderId : String) :
    List (BookKey × String) :=
  books.filter (fun e => ¬(e.1 = key ∧ e.2 = orderId))

/-- Update the stored hash of one order id (`hset order:{id} …`). -/
def updateOrders (orders : List Order) (orderId : String) (g : Order → Order) :
    List Order :=
  orders.map (fun o => if o.orderId = orderId then g o else o)

/-- Input of `addOrder` (the `Omit<Order, …>` argument). -/
structure AddOrderInput where
  maker : String
  marketId : String
  conditionId : String
  makerPositionId : String
  takerPositionId : String
  side : OrderSide
  price : Int
  size : Int
  salt : String
  expiration : Int
  signature : Option String
  publicKey : Option String
deriving DecidableEq, Repr

/-- Embeds `OrderManagerRedis.addOrder`: builds the full record with
`filledSize = 0`, `remainingSize = size`, `status = OPEN`, stores it,
indexes it, and adds it to the primary sorted book (and the legacy book
when the key differs).  The generated random id and `Date.now()` are the
`orderId`/`now` arguments. -/
def addOrder (st : Store) (inp : AddOrderInput) (orderId : String) (now : Int) :
    Store × Order :=
  let fullOrder : Order :=
    { orderId := orderId, maker := inp.maker, marketId := inp.marketId,
      conditionId := inp.conditionId, makerPositionId := inp.makerPositionId,
      takerPositionId := inp.takerPositionId, side := inp.side,
      price := inp.price, size := inp.size, filledSize := 0,
      remainingSize := inp.size, status := OrderStatus.OPEN, salt := inp.salt,
      expiration := inp.expiration, createdAt := now, updatedAt := now,
      signature := inp.signature, publicKey := inp.publicKey }
  let primaryKey := getOrderbookKey fullOrder
  let legacyKey := getLegacyOrderbookKey fullOrder
  let books1 := st.books ++ [(primaryKey, orderId)]
  let books2 := if legacyKey ≠ primaryKey then books1 ++ [(legacyKey, orderId)] else books1
  ({ st with orders := st.orders ++ [fullOrder], books := books2 }, fullOrder)

/-- Embeds `OrderManagerRedis.fillOrder` (the lock-based revision): rejects
non-positive fills, missing orders, terminal orders, and over-fills;
otherwise adds `fillSize` to `filledSize`, subtracts it from
`remainingSize`, sets the status to `FILLED` when nothing remains and
`PARTIALLY_FILLED` otherwise, and removes the order from its sorted books
exactly when it became fully filled.  The per-order lock always succeeds in
this sequential embedding. -/
def fillOrder (st : Store) (orderId : String) (fillSize : Int) (now : Int) :
    Store × Bool :=
  if fillSize ≤ 0 then (st, false)
  else
    match st.getOrder orderId with
    | none => (st, false)
    | some o =>
      if o.status = OrderStatus.FILLED ∨ o.status = OrderStatus.CANCELLED ∨
          o.status = OrderStatus.EXPIRED then (st, false)
      else if o.remainingSize < fillSize then (st, false)
      else
        let newFilledSize := o.filledSize + fillSize
        let newRemainingSize := o.remainingSize - fillSize
        let newStatus :=
          if newRemainingSize ≤ 0 then OrderStatus.FILLED
          else OrderStatus.PARTIALLY_FILLED
        let primaryKey := getOrderbookKey o
        let legacyKey := getLegacyOrderbookKey o
        let orders' := updateOrders st.orders orderId (fun x =>
          { x with filledSize := newFilledSize, remainingSize := newRemainingSize,
                   status := newStatus, updatedAt := now })
        let books' :=
          if newRemainingSize ≤ 0 then
            let b1 := remBook st.books primaryKey orderId
            if legacyKey ≠ primaryKey then remBook b1 legacyKey orderId else b1
          else st.books
        ({ st with orders := orders', books := books' }, true)

/-- Embeds `OrderManagerRedis.cancelOrder`: rejects a missing order and the
statuses `FILLED` and `CANCELLED` (and only those); otherwise sets
`CANCELLED` and removes the order from its books. -/
def cancelOrder (st : Store) (orderId : String) (now : Int) : Store × Bool :=
  match st.getOrder orderId with
  | none => (st, false)
  | some o =>
    if o.status = OrderStatus.FILLED ∨ o.status = OrderStatus.CANCELLED then
      (st, false)
    else
      let orders' := updateOrders st.orders orderId (fun x =>
        { x with status := OrderStatus.CANCELLED, updatedAt := now })
      let b1 := remBook st.books (getOrderbookKey o) orderId
      let books' :=
        if getLegacyOrderbookKey o ≠ getOrderbookKey o then
          remBook b1 (getLegacyOrderbookKey o) orderId
        else b1
      ({ st with orders := orders', books := books' }, true)

/-- Embeds `OrderManagerRedis.expireOrder`: rejects a missing order and all three
terminal statuses; otherwise sets `EXPIRED` and removes the order from its
books. -/
def expireOrder (st : Store) (orderId : String) (now : Int) : Store × Bool :=
  match st.getOrder orderId with
  | none => (st, false)
  | some o =>
    if o.status = OrderStatus.FILLED ∨ o.status = OrderStatus.CANCELLED ∨
        o.status = OrderStatus.EXPIRED then (st, false)
    else
      let orders' := updateOrders st.orders orderId (fun x =>
        { x with status := OrderStatus.EXPIRED, updatedAt := now })
      let b1 := remBook st.books (getOrderbookKey o) orderId
      let books' :=
        if getLegacyOrderbookKey o ≠ getOrderbookKey o then
          remBook b1 (getLegacyOrderbookKey o) orderId
        else b1
      ({ st with orders := orders', books := books' }, true)

/-! ## Matching engine (`services/matchingEngine`, MINT/MERGE revision) -/

/-- Stable insertion into a list sorted by the boolean relation `le`. -/
def insertSorted {α : Type} (le : α → α → Bool) (a : α) : List α → List α
  | [] => [a]
  | b :: bs => if le a b then a :: b :: bs else b :: insertSorted le a bs

/-- Stable sort by the boolean relation `le`; embeds the stable
`Array.prototype.sort` of the source (for a total preorder the stable sort
result is unique, so insertion sort agrees with the engine's sort). -/
def sortStable {α : Type} (le : α → α → Bool) : List α → List α
  | [] => []
  | a :: as => insertSorted le a (sortStable le as)

/-- Comparator `(a, b) => b.price - a.price || a.createdAt - b.createdAt`
(high→low price, then FIFO) as a "comes not after" relation. -/
def buyPriority (a b : Order) : Bool :=
  b.price < a.price ∨ (a.price = b.price ∧ a.createdAt ≤ b.createdAt)

/-- Comparator `(a, b) => a.price - b.price || a.createdAt - b.createdAt`
(low→high price, then FIFO) as a "comes not after" relation. -/
def sellPriority (a b : Order) : Bool :=
  a.price < b.price ∨ (a.price = b.price ∧ a.createdAt ≤ b.createdAt)

/-- Embeds `MatchingEngine.detectComplementaryTrade`: complementary when both
orders are BUYs of different outcomes (or both SELLs of different
outcomes) and the two prices sum to `PRICE_SCALE` within the `10_000`
micro-sat tolerance. -/
def detectComplementaryTrade (buyOrder sellOrder : Order) : Bool :=
  if buyOrder.side = OrderSide.BUY ∧ sellOrder.side = OrderSide.BUY then
    (buyOrder.takerPositionId ≠ sellOrder.takerPositionId) ∧
      |buyOrder.price + sellOrder.price - 1000000| < 10000
  else if buyOrder.side = OrderSide.SELL ∧ sellOrder.side = OrderSide.SELL then
    (buyOrder.makerPositionId ≠ sellOrder.makerPositionId) ∧
      |buyOrder.price + sellOrder.price - 1000000| < 10000
  else false

/-- The trade-type assignment of `matchMarket`: NORMAL unless
`detectComplementaryTrade` holds, in which case MINT for two BUYs and
MERGE for two SELLs. -/
def tradeTypeOf (buyOrder sellOrder : Order) : TradeType :=
  if detectComplementaryTrade buyOrder sellOrder then
    if buyOrder.side = OrderSide.BUY ∧ sellOrder.side = OrderSide.BUY then
      TradeType.MINT
    else if buyOrder.side = OrderSide.SELL ∧ sellOrder.side = OrderSide.SELL then
      TradeType.MERGE
    else TradeType.NORMAL
  else TradeType.NORMAL

/-- Embeds `MatchingEngine.createTrade` for one matched pair: maker fields from
the sell order, taker fields from the buy order, taker side BUY. -/
def createTrade (market : Market) (buyOrder sellOrder : Order)
    (matchPrice matchSize : Int) (tradeId : Nat) : Trade :=
  { tradeId := tradeId, marketId := market.marketId,
    conditionId := buyOrder.conditionId,
    makerPositionId := sellOrder.makerPositionId,
    takerPositionId := sellOrder.takerPositionId,
    maker := sellOrder.maker, taker := buyOrder.maker,
    price := matchPrice, size := matchSize, side := OrderSide.BUY,
    makerOrderId := sellOrder.orderId, takerOrderId := buyOrder.orderId,
    tradeType := tradeTypeOf buyOrder sellOrder }

/-- Embeds `MatchingEngine.updateOrderState`: in-memory debit of a matched order —
clamps `remainingSize` at 0, adds to `filledSize`, and recomputes the
in-memory status from the clamped remainder. -/
def updateOrderState (o : Order) (matchSize : Int) : Order :=
  let newRemaining := max 0 (o.remainingSize - matchSize)
  { o with remainingSize := newRemaining,
           filledSize := o.filledSize + matchSize,
           status := if newRemaining = 0 then OrderStatus.FILLED
                     else OrderStatus.PARTIALLY_FILLED }

/-- The two-pointer loop of `MatchingEngine.matchMarket`: while both lists
have a head and the buy head's price is not below the sell head's price,
match `min` of the remainders at the sell head's price, create the trade,
call `fillOrder` on both orders (results discarded, as in the source),
debit the in-memory copies, and advance the pointer(s) whose remainder
reached 0.  `fuel` bounds the iteration count; reachable runs drop at
least one order per step, so `buys.length + sells.length` fuel is never
exhausted.  The best-effort settlement call and the market-price refresh
of the source write no order or trade fields recorded here and are
omitted. -/
def matchWalk (market : Market) : Nat → List Order → List Order →
    Store → Nat → Int → List Trade × Store
  | 0, _, _, st, _, _ => ([], st)
  | _ + 1, [], _, st, _, _ => ([], st)
  | _ + 1, _, [], st, _, _ => ([], st)
  | fuel + 1, buyOrder :: bs, sellOrder :: ss, st, nextTradeId, now =>
    if buyOrder.price < sellOrder.price then ([], st)
    else
      let matchSize := min buyOrder.remainingSize sellOrder.remainingSize
      let matchPrice := sellOrder.price
      let trade := createTrade market buyOrder sellOrder matchPrice matchSize nextTradeId
      let st1 := (fillOrder st buyOrder.orderId matchSize now).1
      let st2 := (fillOrder st1 sellOrder.orderId matchSize now).1
      let b := updateOrderState buyOrder matchSize
      let s := updateOrderState sellOrder matchSize
      let buys' := if b.remainingSize ≤ 0 then bs else b :: bs
      let sells' := if s.remainingSize ≤ 0 then ss else s :: ss
      let rest := matchWalk market fuel buys' sells' st2 (nextTradeId + 1) now
      (trade :: rest.1, rest.2)

/-- The active-order load and filter of `matchMarket` step 1: orders of the
market that are `OPEN` or `PARTIALLY_FILLED` and trade the given outcome
(BUY with `takerPositionId = positionId`, SELL with
`makerPositionId = positionId`). -/
def activeOrders (st : Store) (market : Market) (positionId : String) : List Order :=
  (st.getMarketOrders market.marketId).filter (fun o =>
    (o.status = OrderStatus.OPEN ∨ o.status = OrderStatus.PARTIALLY_FILLED) ∧
    ((o.side = OrderSide.BUY ∧ o.takerPositionId = positionId) ∨
     (o.side = OrderSide.SELL ∧ o.makerPositionId = positionId)))

/-- Embeds `MatchingEngine.matchMarket` for one `(market, positionId)` book: load
and filter active orders, split and sort them price-time, then run the
two-pointer walk.  Returns the created trades and the store after the
fills. -/
def matchMarket (st : Store) (market : Market) (positionId : String) (now : Int) :
    List Trade × Store :=
  let orders := activeOrders st market positionId
  let buyOrders := sortStable buyPriority (orders.filter (fun o => o.side = OrderSide.BUY))
  let sellOrders := sortStable sellPriority (orders.filter (fun o => o.side = OrderSide.SELL))
  matchWalk market (buyOrders.length + sellOrders.length) buyOrders sellOrders st 0 now

/-! ## Smart router (`services/smartRouter`) -/

/-- Order type of the smart router. -/
inductive OrderType where
  | LIMIT
  | MARKET
deriving DecidableEq, Repr

/-- Aggregated orderbook level `{price, size, orderCount}` (derived view). -/
structure OrderbookLevel where
  price : Rat
  size : Rat
  orderCount : Nat
deriving DecidableEq, Repr, Inhabited

/-- An orderbook snapshot `{bids, asks}` as returned by `getOrderbook`. -/
structure Orderbook where
  bids : List OrderbookLevel
  asks : List OrderbookLevel
deriving DecidableEq, Repr

/-- One level of an `ExecutionPlan`. -/
structure ExecutionLevel where
  price : Rat
  size : Rat
  cumulativeSize : Rat
  cost : Rat
deriving DecidableEq, Repr

/-- The infeasibility reasons of `planExecution`; the source formats these
as strings (for instance `"Slippage 1.85% exceeds maximum 1%"`), embedded
here as structured tags carrying the same data. -/
inductive PlanReason where
  | marketNotFound
  | noCounterparty (side : OrderSide)
  | slippageExceedsMax (slippage maxSlippage : Rat)
  | insufficientLiquidity (available requested : Rat)
deriving DecidableEq, Repr

/-- The `ExecutionPlan` of the smart router. -/
structure ExecutionPlan where
  orderType : OrderType
  totalSize : Rat
  levels : List ExecutionLevel
  averagePrice : Rat
  totalCost : Rat
  slippage : Rat
  worstPrice : Rat
  bestPrice : Rat
  feasible : Bool
  reason : Option PlanReason
deriving DecidableEq, Repr

/-- Embeds `SmartRouter.createInfeasiblePlan`. -/
def createInfeasiblePlan (size : Rat) (reason : PlanReason) : ExecutionPlan :=
  { orderType := OrderType.MARKET, totalSize := size, levels := [],
    averagePrice := 0, totalCost := 0, slippage := 0, worstPrice := 0,
    bestPrice := 0, feasible := false, reason := some reason }

/-- A request to `SmartRouter.planExecution` (market/outcome resolution
already performed; the orderbook snapshot is passed to `planExecution`
directly). -/
structure SmartRouterRequest where
  side : OrderSide
  orderType : OrderType
  size : Rat
  limitPrice : Option Rat
  maxSlippage : Option Rat
deriving DecidableEq, Repr

/-- The LIMIT stop test of the level walk: for BUY stop when the level's
price exceeds the limit, for SELL when it is below it (no limit given:
never stop). -/
def limitPriceStops (side : OrderSide) (limitPrice : Option Rat)
    (levelPrice : Rat) : Bool :=
  match limitPrice with
  | some lp => (side = OrderSide.BUY ∧ lp < levelPrice) ∨
               (side = OrderSide.SELL ∧ levelPrice < lp)
  | none => false

/-- The max-slippage test of `planExecution`: only MARKET orders with a
`maxSlippage` are rejected, when the computed slippage strictly exceeds
it. -/
def slippageExceeded (orderType : OrderType) (maxSlippage : Option Rat)
    (slippage : Rat) : Bool :=
  match maxSlippage with
  | some ms => orderType = OrderType.MARKET ∧ ms < slippage
  | none => false

/-- The level walk of `planExecution` (its `for` loop): walk the sorted
levels, stop once the requested size is exhausted or — for LIMIT — once a
level's price passes the limit, take `min(remaining, level.size)` at each
level, and accumulate cumulative size and cost.  Returns the execution
levels with the final remaining size, cumulative size and total cost. -/
def planLevelsWalk (orderType : OrderType) (side : OrderSide)
    (limitPrice : Option Rat) :
    List OrderbookLevel → Rat → Rat → Rat → List ExecutionLevel →
    List ExecutionLevel × Rat × Rat × Rat
  | [], remainingSize, cumulativeSize, totalCost, acc =>
    (acc.reverse, remainingSize, cumulativeSize, totalCost)
  | level :: rest, remainingSize, cumulativeSize, totalCost, acc =>
    if remainingSize ≤ 0 then (acc.reverse, remainingSize, cumulativeSize, totalCost)
    else if orderType = OrderType.LIMIT ∧
        limitPriceStops side limitPrice level.price then
      (acc.reverse, remainingSize, cumulativeSize, totalCost)
    else
      let sizeFromLevel := min remainingSize level.size
      let cumulativeSize' := cumulativeSize + sizeFromLevel
      let levelCost := sizeFromLevel * level.price
      let totalCost' := totalCost + levelCost
      let entry : ExecutionLevel :=
        { price := level.price, size := sizeFromLevel,
          cumulativeSize := cumulativeSize', cost := levelCost }
      planLevelsWalk orderType side limitPrice rest
        (remainingSize - sizeFromLevel) cumulativeSize' totalCost' (entry :: acc)

/-- Embeds `SmartRouter.planExecution` from the point where the orderbook snapshot
is in hand (the market/position resolution and snapshot fetch are store
I/O; the `"Market not found"` branch belongs to that part).  Chooses the
counterparty side, sorts it price-ascending for BUY and price-descending
for SELL, walks the levels, and computes average price, slippage and
feasibility exactly as the source. -/
def planExecution (orderbook : Orderbook) (request : SmartRouterRequest) :
    ExecutionPlan :=
  let levels := if request.side = OrderSide.BUY then orderbook.asks else orderbook.bids
  if levels.isEmpty then
    createInfeasiblePlan request.size (PlanReason.noCounterparty request.side)
  else
    let sortedLevels :=
      sortStable (fun a b =>
        if request.side = OrderSide.BUY then a.price ≤ b.price else b.price ≤ a.price)
        levels
    let bestPrice := (sortedLevels.headI).price
    let walk := planLevelsWalk request.orderType request.side request.limitPrice
      sortedLevels request.size 0 0 []
    let executionLevels := walk.1
    let remainingSize := walk.2.1
    let cumulativeSize := walk.2.2.1
    let totalCost := walk.2.2.2
    let feasible := remainingSize ≤ 0
    let actualSize := cumulativeSize
    let averagePrice := if 0 < actualSize then totalCost / actualSize else 0
    let worstPrice := (executionLevels.getLast?.map (fun l => l.price)).getD bestPrice
    let slippage :=
      if 0 < bestPrice then |averagePrice - bestPrice| / bestPrice * 100 else 0
    if slippageExceeded request.orderType request.maxSlippage slippage then
      createInfeasiblePlan request.size
        (PlanReason.slippageExceedsMax slippage (request.maxSlippage.getD 0))
    else if ¬feasible then
      { orderType := request.orderType, totalSize := request.size,
        levels := executionLevels, averagePrice := averagePrice,
        totalCost := totalCost, slippage := slippage, worstPrice := worstPrice,
        bestPrice := bestPrice, feasible := false,
        reason := some (PlanReason.insufficientLiquidity actualSize request.size) }
    else
      { orderType := request.orderType, totalSize := request.size,
        levels := executionLevels, averagePrice := averagePrice,
        totalCost := totalCost, slippage := slippage, worstPrice := worstPrice,
        bestPrice := bestPrice, feasible := true, reason := none }

/-! ## Order hashing (`utils/signatureVerification`) -/

/-- The regex test `/^\d+$/`: nonempty and all decimal digits. -/
def isNumericString (s : String) : Bool :=
  !s.isEmpty && s.data.all Char.isDigit

/-- Decimal value of a numeric string (the `BigInt`/`parseInt` of the
source on its validated all-digit inputs). -/
def digitsToNat (s : String) : Nat :=
  s.data.foldl (fun acc c => acc * 10 + (c.toNat - '0'.toNat)) 0

/-- Whitespace trim of both ends (JavaScript `String.prototype.trim`). -/
def trimString (s : String) : String :=
  String.mk (((s.data.dropWhile Char.isWhitespace).reverse.dropWhile
    Char.isWhitespace).reverse)

/-- Hex-digit test for one character. -/
def isHexChar (c : Char) : Bool :=
  c.isDigit ∨ ('a' ≤ c ∧ c ≤ 'f') ∨ ('A' ≤ c ∧ c ≤ 'F')

/-- A 32-byte position id: exactly 64 hex characters
(the `/^[0-9a-fA-F]{64}$/` test). -/
def isHex64 (s : String) : Bool :=
  s.length == 64 && s.data.all isHexChar

/-- One consensus-serialized field of the order-hash preimage: a standard
principal, a raw 32-byte position id, or an unsigned integer. -/
inductive HashField where
  | principalField (p : String)
  | positionField (hex : String)
  | uintField (n : Int)
deriving DecidableEq, Repr

/-- Embeds `computeOrderHash`: it validates that the salt is a numeric string and the
position ids are 32 bytes, then produces the SHA-256 digest of the
concatenated consensus encodings of (maker, taker, makerPositionId,
takerPositionId, makerAmount, takerAmount, salt, expiration).  The
serialization and the hash are deterministic and collision-free for this
fixed field shape, so the digest is embedded as the validated field list
itself: two digests agree exactly when the field lists agree. -/
def computeOrderHash (maker taker makerPositionId takerPositionId : String)
    (makerAmount takerAmount : Int) (salt : String) (expiration : Int) :
    Except String (List HashField) :=
  if ¬isNumericString salt then
    Except.error "Salt must be a numeric string"
  else if ¬isHex64 makerPositionId then
    Except.error "Maker position ID must be 32 bytes (64 hex chars)"
  else if ¬isHex64 takerPositionId then
    Except.error "Taker position ID must be 32 bytes (64 hex chars)"
  else
    Except.ok
      [HashField.principalField maker, HashField.principalField taker,
       HashField.positionField makerPositionId,
       HashField.positionField takerPositionId,
       HashField.uintField makerAmount, HashField.uintField takerAmount,
       HashField.uintField (Int.ofNat (digitsToNat salt)),
       HashField.uintField expiration]

/-! ## Smart-order placement (`routes/smartOrders`) -/

/-- A placement request to `POST /api/smart-orders` after the generic field
checks (side/outcome/orderType shape, integer `size > 0`) and the
market/position resolution.  `price` is the parsed `numericPrice` of a
LIMIT request; `sigOk` abstracts the ECDSA check inside
`verifyOrderSignatureMiddleware` (the hash side of that middleware is
`computeOrderHash` above). -/
structure PlaceOrderRequest where
  maker : String
  marketId : String
  conditionId : String
  makerPositionId : String
  takerPositionId : String
  side : OrderSide
  price : Rat
  size : Int
  salt : String
  expiration : Int
  signature : String
  publicKey : String
  sigOk : Bool
deriving DecidableEq, Repr

/-- The LIMIT price validation of the placement route: reject a negative
price (`"Price must be a positive number in micro-sats for LIMIT orders"`)
and a non-integer price; every non-negative integer — including `0` and
`PRICE_SCALE` — passes.  Returns the accepted integer price. -/
def validateLimitPrice (numericPrice : Rat) : Except String Int :=
  if numericPrice < 0 then
    Except.error "Price must be a positive number in micro-sats for LIMIT orders"
  else if ¬numericPrice.isInt then
    Except.error "Price must be an integer (micro-sats) for LIMIT orders"
  else
    Except.ok numericPrice.num

/-- The digest the LIMIT branch verifies the signature against:
`computeOrderHash(maker, maker, …, makerAmount = size,
takerAmount = size * price, salt || "", expiration || 0)`. -/
def limitAcceptanceHash (req : PlaceOrderRequest) (price : Int) :
    Except String (List HashField) :=
  computeOrderHash req.maker req.maker req.makerPositionId req.takerPositionId
    req.size (req.size * price) req.salt req.expiration

/-- The LIMIT branch of `POST /api/smart-orders`: validate the price,
verify the signature against `limitAcceptanceHash`, then `addOrder` the
record with exactly the validated fields.  Errors are the route's
`400` responses. -/
def placeLimitOrder (st : Store) (req : PlaceOrderRequest)
    (orderId : String) (now : Int) : Except String (Store × Order) := do
  let price ← validateLimitPrice req.price
  let _hash ← limitAcceptanceHash req price
  if ¬req.sigOk then
    Except.error "Signature verification failed: Invalid signature"
  else
    Except.ok (addOrder st
      { maker := req.maker, marketId := req.marketId,
        conditionId := req.conditionId,
        makerPositionId := req.makerPositionId,
        takerPositionId := req.takerPositionId, side := req.side,
        price := price, size := req.size, salt := req.salt,
        expiration := req.expiration, signature := some req.signature,
        publicKey := some req.publicKey } orderId now)

/-- The digest the MARKET branch verifies once for the whole order:
`makerAmount` is the total requested size, `takerAmount` is
`Math.floor(plan.averagePrice * size)`, salt and expiration default to
`""` and `0`. -/
def marketAcceptanceHash (req : PlaceOrderRequest) (averagePrice : Rat) :
    Except String (List HashField) :=
  computeOrderHash req.maker req.maker req.makerPositionId req.takerPositionId
    req.size ⌊averagePrice * (req.size : Rat)⌋ req.salt req.expiration

/-- The per-level salt of the MARKET branch:
`` `${salt || Date.now()}_level_${level.price}` ``. -/
def marketLevelSalt (salt : String) (now : Int) (levelPrice : Int) : String :=
  (if salt.isEmpty then toString now else salt) ++ "_level_" ++ toString levelPrice

/-- One per-level order stored by the MARKET branch: the user's side and
position ids, the level's price and size, the suffixed salt, and the
expiration defaulted to `999999999`. -/
def marketLevelOrderInput (req : PlaceOrderRequest)
    (levelPrice levelSize : Int) (now : Int) : AddOrderInput :=
  { maker := req.maker, marketId := req.marketId,
    conditionId := req.conditionId,
    makerPositionId := req.makerPositionId,
    takerPositionId := req.takerPositionId, side := req.side,
    price := levelPrice, size := levelSize,
    salt := marketLevelSalt req.salt now levelPrice,
    expiration := if req.expiration = 0 then 999999999 else req.expiration,
    signature := some req.signature, publicKey := some req.publicKey }

/-- Recompute an order's digest from its stored fields, the way the LIMIT
acceptance computed it: maker as both principals, the stored position ids,
`makerAmount` the stored size, `takerAmount` the stored `size * price`,
the stored salt and expiration. -/
def recomputeStoredHash (o : Order) : Except String (List HashField) :=
  computeOrderHash o.maker o.maker o.makerPositionId o.takerPositionId
    o.size (o.size * o.price) o.salt o.expiration

/-! ## Settlement bridge (`services/stacksSettlement`) -/

/-- Clarity argument values passed to the contract call. -/
inductive ClarityValue where
  | principalCV (p : String)
  | bufferCV (hex : String)
  | uintCV (n : Int)
deriving DecidableEq, Repr

/-- A fully built contract call (the input of `makeContractCall` that the
trade determines: function name and arguments). -/
structure ContractCall where
  functionName : String
  functionArgs : List ClarityValue
deriving DecidableEq, Repr

/-- A settlement request: the trade, the resting (maker) order, the
crossing (taker) order, and the fill amount. -/
structure SettlementRequest where
  trade : Trade
  makerOrder : Order
  takerOrder : Order
  fillAmount : Int
  executionPrice : Int
deriving DecidableEq, Repr

/-- Embeds `ensureInteger`: non-negative integer check (integrality is inherent in
the `Int` embedding). -/
def ensureInteger (value : Int) (context : String) : Except String Int :=
  if value < 0 then
    Except.error (context ++ " must be a non-negative finite number")
  else Except.ok value

/-- Embeds `parseUint` on an order's salt string: empty (after trim) means `0`,
otherwise the string must be numeric. -/
def parseUintString (value : String) : Except String Int :=
  if (trimString value).isEmpty then Except.ok 0
  else if isNumericString value then Except.ok (Int.ofNat (digitsToNat value))
  else Except.error "Expected numeric string"

/-- Embeds `parseUint` on an order's expiration number. -/
def parseUintInt (value : Int) : Except String Int :=
  if value < 0 then Except.error "Invalid numeric value"
  else Except.ok value

/-- Embeds `signature.replace(/^0x/, "")`. -/
def stripHexMarker (s : String) : String :=
  if s.data.take 2 = ['0', 'x'] then String.mk (s.data.drop 2) else s

/-- Embeds `positionIdToBuffer`: requires a 64-char hex string and yields the
32-byte buffer (kept as its hex spelling). -/
def positionIdToBuffer (positionId : String) : Except String String :=
  if isHex64 positionId then Except.ok positionId
  else Except.error "Position ID must be a 64-character hex string (32 bytes)"

/-- Embeds `StacksSettlementService.submitFillNormal`: builds the
`fill-order` call — maker principal, maker position buffer, maker amount
(= maker order size), maker signature, taker principal, taker position
buffer, taker amount (= `floor(makerOrder.price * makerOrder.size)`),
salt, expiration, fill. -/
def submitFillNormal (request : SettlementRequest) : Except String ContractCall := do
  let makerOrder := request.makerOrder
  let takerOrder := request.takerOrder
  let makerAmount ← ensureInteger makerOrder.size "maker size"
  let takerAmount ← ensureInteger (makerOrder.price * makerOrder.size) "maker taker amount"
  let fill ← ensureInteger request.fillAmount "fill amount"
  let salt ← parseUintString makerOrder.salt
  let expiration ← parseUintInt makerOrder.expiration
  match makerOrder.signature with
  | none => Except.error "Maker signature is required for settlement"
  | some sig =>
    let makerSig := stripHexMarker sig
    if makerSig.length ≠ 130 then
      Except.error "Maker signature must be 65 bytes (130 hex chars)"
    else do
      let makerPos ← positionIdToBuffer makerOrder.makerPositionId
      let takerPos ← positionIdToBuffer takerOrder.takerPositionId
      Except.ok
        { functionName := "fill-order",
          functionArgs :=
            [ClarityValue.principalCV makerOrder.maker,
             ClarityValue.bufferCV makerPos,
             ClarityValue.uintCV makerAmount,
             ClarityValue.bufferCV makerSig,
             ClarityValue.principalCV takerOrder.maker,
             ClarityValue.bufferCV takerPos,
             ClarityValue.uintCV takerAmount,
             ClarityValue.uintCV salt,
             ClarityValue.uintCV expiration,
             ClarityValue.uintCV fill] }

/-- Embeds `StacksSettlementService.submitFillMint`: builds the `fill-order-mint`
call for two buyers (per-buyer payments
`floor(price / 1_000_000 * fillAmount)`, both `takerPositionId` buffers,
the condition id, salt, expiration, fill).  Present in the source but —
as proved below — never reached from `submitFill`. -/
def submitFillMint (request : SettlementRequest) : Except String ContractCall := do
  let makerOrder := request.makerOrder
  let takerOrder := request.takerOrder
  let buyer1Payment ← ensureInteger
    (Int.fdiv (makerOrder.price * request.fillAmount) 1000000) "buyer 1 payment"
  let buyer2Payment ← ensureInteger
    (Int.fdiv (takerOrder.price * request.fillAmount) 1000000) "buyer 2 payment"
  let fill ← ensureInteger request.fillAmount "fill amount"
  let salt ← parseUintString makerOrder.salt
  let expiration ← parseUintInt makerOrder.expiration
  match makerOrder.signature, takerOrder.signature with
  | some mSig, some tSig =>
    let makerSig := stripHexMarker mSig
    let takerSig := stripHexMarker tSig
    if makerSig.length ≠ 130 ∨ takerSig.length ≠ 130 then
      Except.error "Signatures must be 65 bytes (130 hex chars)"
    else do
      let conditionId ← positionIdToBuffer request.trade.conditionId
      let makerPos ← positionIdToBuffer makerOrder.takerPositionId
      let takerPos ← positionIdToBuffer takerOrder.takerPositionId
      let makerAmount ← ensureInteger makerOrder.size "buyer 1 amount"
      let takerAmount ← ensureInteger takerOrder.size "buyer 2 amount"
      Except.ok
        { functionName := "fill-order-mint",
          functionArgs :=
            [ClarityValue.principalCV makerOrder.maker,
             ClarityValue.bufferCV makerPos,
             ClarityValue.uintCV makerAmount,
             ClarityValue.uintCV buyer1Payment,
             ClarityValue.bufferCV makerSig,
             ClarityValue.principalCV takerOrder.maker,
             ClarityValue.bufferCV takerPos,
             ClarityValue.uintCV takerAmount,
             ClarityValue.uintCV buyer2Payment,
             ClarityValue.bufferCV takerSig,
             ClarityValue.bufferCV conditionId,
             ClarityValue.uintCV salt,
             ClarityValue.uintCV expiration,
             ClarityValue.uintCV fill] }
  | _, _ => Except.error "Both signatures required for MINT mode"

/-- Embeds `StacksSettlementService.submitFillMerge`: builds the
`fill-order-merge` call for two sellers (per-seller payouts, both
`makerPositionId` buffers, the condition id, salt, expiration, fill). -/
def submitFillMerge (request : SettlementRequest) : Except String ContractCall := do
  let makerOrder := request.makerOrder
  let takerOrder := request.takerOrder
  let seller1Payout ← ensureInteger
    (Int.fdiv (makerOrder.price * request.fillAmount) 1000000) "seller 1 payout"
  let seller2Payout ← ensureInteger
    (Int.fdiv (takerOrder.price * request.fillAmount) 1000000) "seller 2 payout"
  let fill ← ensureInteger request.fillAmount "fill amount"
  let salt ← parseUintString makerOrder.salt
  let expiration ← parseUintInt makerOrder.expiration
  match makerOrder.signature, takerOrder.signature with
  | some mSig, some tSig =>
    let makerSig := stripHexMarker mSig
    let takerSig := stripHexMarker tSig
    if makerSig.length ≠ 130 ∨ takerSig.length ≠ 130 then
      Except.error "Signatures must be 65 bytes (130 hex chars)"
    else do
      let conditionId ← positionIdToBuffer request.trade.conditionId
      let makerPos ← positionIdToBuffer makerOrder.makerPositionId
      let takerPos ← positionIdToBuffer takerOrder.makerPositionId
      let makerAmount ← ensureInteger makerOrder.size "seller 1 amount"
      let takerAmount ← ensureInteger takerOrder.size "seller 2 amount"
      Except.ok
        { functionName := "fill-order-merge",
          functionArgs :=
            [ClarityValue.principalCV makerOrder.maker,
             ClarityValue.bufferCV makerPos,
             ClarityValue.uintCV makerAmount,
             ClarityValue.uintCV seller1Payout,
             ClarityValue.bufferCV makerSig,
             ClarityValue.principalCV takerOrder.maker,
             ClarityValue.bufferCV takerPos,
             ClarityValue.uintCV takerAmount,
             ClarityValue.uintCV seller2Payout,
             ClarityValue.bufferCV takerSig,
             ClarityValue.bufferCV conditionId,
             ClarityValue.uintCV salt,
             ClarityValue.uintCV expiration,
             ClarityValue.uintCV fill] }
  | _, _ => Except.error "Both signatures required for MERGE mode"

/-- Embeds `StacksSettlementService.submitFill` (service enabled): routes by
`trade.tradeType`.  MINT is routed to `submitFillNormal` (the source
comments: "MINT trades execute as NORMAL"), MERGE to `submitFillMerge`,
NORMAL to `submitFillNormal`. -/
def submitFill (request : SettlementRequest) : Except String ContractCall :=
  match request.trade.tradeType with
  | TradeType.MINT => submitFillNormal request
  | TradeType.MERGE => submitFillMerge request
  | TradeType.NORMAL => submitFillNormal request

/-! ## Block-height monitor (`services/stacksMonitor`) -/

/-- The inner loop of `StacksMonitor.checkExpiredOrders` over the order
snapshot of one market: expire every order that is resting (`OPEN` or
`PARTIALLY_FILLED`) with `expiration < currentBlockHeight`.  Returns the
store after the `expireOrder` calls and the list of order ids those calls
were made on. -/
def expireSweep (st : Store) (orders : List Order) (currentBlockHeight : Int)
    (now : Int) : Store × List String :=
  match orders with
  | [] => (st, [])
  | o :: rest =>
    if (o.status = OrderStatus.OPEN ∨ o.status = OrderStatus.PARTIALLY_FILLED) ∧
        o.expiration < currentBlockHeight then
      let st' := (expireOrder st o.orderId now).1
      let next := expireSweep st' rest currentBlockHeight now
      (next.1, o.orderId :: next.2)
    else expireSweep st rest currentBlockHeight now

/-- Embeds `StacksMonitor.checkExpiredOrders`: walk all markets, skip resolved
ones, and sweep each market's current order snapshot.  Returns the final
store and all order ids on which `expireOrder` was called. -/
def checkExpiredOrders (st : Store) (markets : List Market)
    (currentBlockHeight : Int) (now : Int) : Store × List String :=
  match markets with
  | [] => (st, [])
  | m :: rest =>
    if m.resolved then checkExpiredOrders st rest currentBlockHeight now
    else
      let swept := expireSweep st (st.getMarketOrders m.marketId) currentBlockHeight now
      let next := checkExpiredOrders swept.1 rest currentBlockHeight now
      (next.1, swept.2 ++ next.2)

/-! ## Concrete test data

Position ids and condition ids are 32-byte (64 hex char) strings; the
signature fixture is 130 hex chars. -/

/-- YES position id fixture (64 hex chars). -/
def yesPos : String := String.mk (List.replicate 64 'a')

/-- NO position id fixture (64 hex chars). -/
def noPos : String := String.mk (List.replicate 64 'b')

/-- Condition id fixture (64 hex chars). -/
def condId : String := String.mk (List.replicate 64 '0')

/-- Signature fixture (130 hex chars, RSV). -/
def sigHex : String := String.mk (List.replicate 130 'c')

/-- A non-resolved test market. -/
def testMarket : Market :=
  { marketId := "m1", conditionId := condId, yesPositionId := yesPos,
    noPositionId := noPos, yesPrice := 500000, noPrice := 500000,
    resolved := false }

/-- Base order record the concrete fixtures derive from: a BUY YES order
of market `m1`. -/
def baseOrder : Order :=
  { orderId := "", maker := "alice", marketId := "m1", conditionId := condId,
    makerPositionId := noPos, takerPositionId := yesPos,
    side := OrderSide.BUY, price := 0, size := 0, filledSize := 0,
    remainingSize := 0, status := OrderStatus.OPEN, salt := "1",
    expiration := 0, createdAt := 0, updatedAt := 0, signature := none,
    publicKey := none }

/-- An older BUY YES at 700_000 for 50 (created at t=1). -/
def buyOld : Order :=
  { baseOrder with orderId := "b1", price := 700000, size := 50,
                   remainingSize := 50, createdAt := 1 }

/-- A newer SELL YES at 650_000 for 100 (created at t=2). -/
def sellNew : Order :=
  { baseOrder with orderId := "s1", maker := "bob",
                   makerPositionId := yesPos, takerPositionId := noPos,
                   side := OrderSide.SELL, price := 650000, size := 100,
                   remainingSize := 100, createdAt := 2 }

/-- Book with an older buy crossing a newer sell (execution-price
fixture). -/
def storeOlderBuy : Store :=
  { orders := [buyOld, sellNew], books := [], markets := [testMarket] }

/-- BUY YES at 600_000 for 100 (the MINT scenario's first order). -/
def buyYesMint : Order :=
  { baseOrder with orderId := "by", price := 600000, size := 100,
                   remainingSize := 100, createdAt := 1 }

/-- BUY NO at 400_000 for 100 (the MINT scenario's second order). -/
def buyNoMint : Order :=
  { baseOrder with orderId := "bn", maker := "bob",
                   makerPositionId := yesPos, takerPositionId := noPos,
                   price := 400000, size := 100, remainingSize := 100,
                   createdAt := 2 }

/-- The MINT scenario book: two complementary BUY orders whose prices sum
to `PRICE_SCALE`, and no SELL order. -/
def storeMintScenario : Store :=
  { orders := [buyYesMint, buyNoMint], books := [], markets := [testMarket] }

/-- A size-0 SELL YES resting OPEN at 600_000 (created at t=1); such a
record is exactly what `addOrder` stores for a size-0 input. -/
def sellZero : Order :=
  { baseOrder with orderId := "s0", maker := "bob",
                   makerPositionId := yesPos, takerPositionId := noPos,
                   side := OrderSide.SELL, price := 600000, size := 0,
                   remainingSize := 0, createdAt := 1 }

/-- A SELL YES at 600_000 for 100 behind `sellZero` (created at t=2). -/
def sellFull : Order :=
  { baseOrder with orderId := "s1", maker := "carol",
                   makerPositionId := yesPos, takerPositionId := noPos,
                   side := OrderSide.SELL, price := 600000, size := 100,
                   remainingSize := 100, createdAt := 2 }

/-- A BUY YES at 700_000 for 100 crossing both sells (created at t=3). -/
def buyBig : Order :=
  { baseOrder with orderId := "b1", price := 700000, size := 100,
                   remainingSize := 100, createdAt := 3 }

/-- Book where the first match's `fillOrder` calls fail (match size 0). -/
def storeFailedFill : Store :=
  { orders := [sellZero, sellFull, buyBig], books := [], markets := [testMarket] }

/-- An EXPIRED order. -/
def expiredOrder : Order :=
  { baseOrder with orderId := "e1", size := 10, remainingSize := 10,
                   status := OrderStatus.EXPIRED }

/-- Store holding one EXPIRED order. -/
def storeExpired : Store :=
  { orders := [expiredOrder], books := [], markets := [testMarket] }

/-- An OPEN order of size 10, booked under its primary and legacy keys. -/
def openOrder : Order :=
  { baseOrder with orderId := "w1", size := 10, remainingSize := 10 }

/-- Store holding `openOrder` with its book entries. -/
def storeOpen : Store :=
  { orders := [openOrder],
    books := [(getOrderbookKey openOrder, "w1"), (getLegacyOrderbookKey openOrder, "w1")],
    markets := [testMarket] }

/-- A MINT-typed trade between the two complementary buyers. -/
def mintTrade : Trade :=
  { tradeId := 0, marketId := "m1", conditionId := condId,
    makerPositionId := yesPos, takerPositionId := noPos, maker := "bob",
    taker := "alice", price := 600000, size := 100, side := OrderSide.BUY,
    makerOrderId := "bn", takerOrderId := "by", tradeType := TradeType.MINT }

/-- The maker order of the MINT settlement request, carrying a
signature. -/
def mintMakerOrder : Order :=
  { buyNoMint with signature := some sigHex, publicKey := some "02aa" }

/-- The taker order of the MINT settlement request, carrying a
signature. -/
def mintTakerOrder : Order :=
  { buyYesMint with signature := some sigHex, publicKey := some "02bb" }

/-- A complete settlement request for a MINT trade. -/
def mintRequest : SettlementRequest :=
  { trade := mintTrade, makerOrder := mintMakerOrder,
    takerOrder := mintTakerOrder, fillAmount := 100,
    executionPrice := 600000 }

/-- The contract call the bridge actually builds for `mintRequest`: the
NORMAL `fill-order` call (maker principal, maker position, maker amount,
maker signature, taker principal, taker position, taker amount, salt,
expiration, fill). -/
def mintRequestCall : ContractCall :=
  { functionName := "fill-order",
    functionArgs :=
      [ClarityValue.principalCV "bob", ClarityValue.bufferCV yesPos,
       ClarityValue.uintCV 100, ClarityValue.bufferCV sigHex,
       ClarityValue.principalCV "alice", ClarityValue.bufferCV yesPos,
       ClarityValue.uintCV 40000000, ClarityValue.uintCV 1,
       ClarityValue.uintCV 0, ClarityValue.uintCV 100] }

/-- The ask book of the slippage scenario:
`[{650_000×200}, {660_000×150}, {680_000×300}]`. -/
def slippageBook : Orderbook :=
  { bids := [],
    asks := [{ price := 650000, size := 200, orderCount := 1 },
             { price := 660000, size := 150, orderCount := 1 },
             { price := 680000, size := 300, orderCount := 1 }] }

/-- MARKET BUY 500 with `maxSlippage = 5`. -/
def slippageRequest5 : SmartRouterRequest :=
  { side := OrderSide.BUY, orderType := OrderType.MARKET, size := 500,
    limitPrice := none, maxSlippage := some 5 }

/-- MARKET BUY 500 with `maxSlippage = 1`. -/
def slippageRequest1 : SmartRouterRequest :=
  { side := OrderSide.BUY, orderType := OrderType.MARKET, size := 500,
    limitPrice := none, maxSlippage := some 1 }

/-- A store with the test market and no orders. -/
def emptyStore : Store :=
  { orders := [], books := [], markets := [testMarket] }

/-- A signed MARKET placement request with numeric salt `"12345"`. -/
def marketPlaceRequest : PlaceOrderRequest :=
  { maker := "alice", marketId := "m1", conditionId := condId,
    makerPositionId := noPos, takerPositionId := yesPos,
    side := OrderSide.BUY, price := 0, size := 500, salt := "12345",
    expiration := 0, signature := sigHex, publicKey := "02aa", sigOk := true }

/-- A signed LIMIT placement request at price 650_000 with numeric
salt. -/
def limitPlaceRequest : PlaceOrderRequest :=
  { marketPlaceRequest with price := 650000, size := 100 }

/-- A signed LIMIT placement request at price 0. -/
def limitPriceZeroRequest : PlaceOrderRequest :=
  { marketPlaceRequest with price := 0, size := 10, salt := "7" }

/-- A signed LIMIT placement request at price `PRICE_SCALE`
(1_000_000). -/
def limitPriceScaleRequest : PlaceOrderRequest :=
  { marketPlaceRequest with price := 1000000, size := 10, salt := "7" }

/-- A resting order with `expiration = 0` (no expiration requested). -/
def noExpirationOrder : Order :=
  { baseOrder with orderId := "x1", size := 5, remainingSize := 5,
                   expiration := 0 }

/-- Store holding `noExpirationOrder`. -/
def storeNoExpiration : Store :=
  { orders := [noExpirationOrder], books := [], markets := [testMarket] }

/-! ## Claim statement shapes -/

/-- Behavior of one `fillOrder` call on a stored order `o`: rejection
branches leave the store untouched and return `false`; the success branch
returns `true`, debits the sizes, sets `FILLED` exactly on a zero
remainder (`PARTIALLY_FILLED` otherwise), removes the order from its books
exactly when fully filled, and preserves the size invariant
`filledSize + remainingSize = size` with both parts non-negative. -/
def FillOrderBehavior (st : Store) (orderId : String) (fillSize now : Int)
    (o : Order) : Prop :=
  ((o.status = OrderStatus.FILLED ∨ o.status = OrderStatus.CANCELLED ∨
      o.status = OrderStatus.EXPIRED) ∨ fillSize ≤ 0 ∨
      o.remainingSize < fillSize →
    fillOrder st orderId fillSize now = (st, false)) ∧
  (¬(o.status = OrderStatus.FILLED ∨ o.status = OrderStatus.CANCELLED ∨
      o.status = OrderStatus.EXPIRED) → 0 < fillSize →
      fillSize ≤ o.remainingSize →
    (fillOrder st orderId fillSize now).2 = true ∧
    ((fillOrder st orderId fillSize now).1.getOrder orderId =
      some { o with filledSize := o.filledSize + fillSize,
                    remainingSize := o.remainingSize - fillSize,
                    status :=
                      if o.remainingSize - fillSize = 0 then OrderStatus.FILLED
                      else OrderStatus.PARTIALLY_FILLED,
                    updatedAt := now }) ∧
    (o.remainingSize - fillSize = 0 →
      (getOrderbookKey o, orderId) ∉ (fillOrder st orderId fillSize now).1.books ∧
      (getLegacyOrderbookKey o, orderId) ∉ (fillOrder st orderId fillSize now).1.books) ∧
    (o.remainingSize - fillSize ≠ 0 →
      (fillOrder st orderId fillSize now).1.books = st.books) ∧
    (o.filledSize + o.remainingSize = o.size → 0 ≤ o.filledSize →
      (o.filledSize + fillSize) + (o.remainingSize - fillSize) = o.size ∧
      0 ≤ o.filledSize + fillSize ∧ 0 ≤ o.remainingSize - fillSize))

/-- Terminal-state behavior of the three mutators on a stored order `o`:
`fillOrder` and `expireOrder` treat all of FILLED, CANCELLED and EXPIRED
as absorbing; `cancelOrder` treats only FILLED and CANCELLED as absorbing,
and on an EXPIRED order returns `true` and rewrites the status to
CANCELLED. -/
def TerminalBehavior (st : Store) (orderId : String) (now : Int)
    (o : Order) : Prop :=
  (o.status = OrderStatus.FILLED ∨ o.status = OrderStatus.CANCELLED ∨
      o.status = OrderStatus.EXPIRED →
    (∀ fillSize, fillOrder st orderId fillSize now = (st, false)) ∧
    expireOrder st orderId now = (st, false)) ∧
  (o.status = OrderStatus.FILLED ∨ o.status = OrderStatus.CANCELLED →
    cancelOrder st orderId now = (st, false)) ∧
  (o.status = OrderStatus.EXPIRED →
    (cancelOrder st orderId now).2 = true ∧
    (cancelOrder st orderId now).1.getOrder orderId =
      some { o with status := OrderStatus.CANCELLED, updatedAt := now })

/-! ## General lemmas about the store operations -/

/-- Lookup through an id-keyed update: the updated list's lookup is the map
of the original lookup, provided the update keeps order ids. -/
theorem find?_updateOrders (orders : List Order) (orderId : String)
    (g : Order → Order) (hg : ∀ o, (g o).orderId = o.orderId) :
    (updateOrders orders orderId g).find? (fun o => o.orderId = orderId) =
      (orders.find? (fun o => o.orderId = orderId)).map g := by
  induction orders with
  | nil => rfl
  | cons o rest ih =>
    by_cases h : o.orderId = orderId
    · simp [updateOrders, List.find?, h, hg]
    · simp only [updateOrders, List.map] at ih ⊢
      simp [List.find?, h, ih]

/-- Lookup after an update of a different id is unchanged. -/
theorem mem_updateOrders_of_ne (orders : List Order) (orderId : String)
    (g : Order → Order) (o : Order) (ho : o ∈ orders)
    (hne : o.orderId ≠ orderId) : o ∈ updateOrders orders orderId g := by
  simp only [updateOrders, List.mem_map]
  exact ⟨o, ho, by simp [hne]⟩

/-- Updates keep the sequence of order ids, provided the update keeps
order ids. -/
theorem map_orderId_updateOrders (orders : List Order) (orderId : String)
    (g : Order → Order) (hg : ∀ o, (g o).orderId = o.orderId) :
    (updateOrders orders orderId g).map Order.orderId =
      orders.map Order.orderId := by
  induction orders with
  | nil => rfl
  | cons o rest ih =>
    by_cases h : o.orderId = orderId <;>
      simp only [updateOrders, List.map] at ih ⊢ <;> simp [h, hg, ih]

/-- A removed book entry is absent from the filtered membership set. -/
theorem not_mem_remBook (books : List (BookKey × String)) (key : BookKey)
    (orderId : String) : (key, orderId) ∉ remBook books key orderId := by
  intro h
  have := (List.mem_filter.mp h).2
  simp at this

/-- Removal via `remBook` only removes entries. -/
theorem remBook_subset (books : List (BookKey × String)) (key : BookKey)
    (orderId : String) : remBook books key orderId ⊆ books := fun _ h =>
  (List.mem_filter.mp h).1

/-! ## Claims about the store mutators -/

/-- C6: `fillOrder` returns `false` without modifying the order when the
order is terminal, when `fillSize ≤ 0`, or when `fillSize` exceeds
`remainingSize`; otherwise it debits the sizes, sets `FILLED` exactly when
the new remainder is 0 and `PARTIALLY_FILLED` otherwise, removes the order
from its sorted books exactly when fully filled, returns `true`, and
preserves `filledSize + remainingSize = size` with both parts
non-negative. -/
theorem fillOrder_spec (st : Store) (orderId : String) (fillSize now : Int)
    (o : Order) (h : st.getOrder orderId = some o) :
    FillOrderBehavior st orderId fillSize now o := by
  constructor
  · intro hrej
    unfold fillOrder
    rcases hrej with hterm | hle | hlt
    · by_cases hf : fillSize ≤ 0
      · simp [hf]
      · simp [hf, h, hterm]
    · simp [hle]
    · by_cases hf : fillSize ≤ 0
      · simp [hf]
      · simp only [if_neg hf, h]
        split <;> simp [hlt]
  · intro hterm hpos hle
    have hf : ¬fillSize ≤ 0 := by omega
    have hlt : ¬o.remainingSize < fillSize := by omega
    have hiff : (o.remainingSize - fillSize ≤ 0) ↔ (o.remainingSize - fillSize = 0) := by
      omega
    have hres : fillOrder st orderId fillSize now =
        ({ st with
            orders := updateOrders st.orders orderId (fun x =>
              { x with filledSize := o.filledSize + fillSize,
                       remainingSize := o.remainingSize - fillSize,
                       status :=
                         if o.remainingSize - fillSize ≤ 0 then OrderStatus.FILLED
                         else OrderStatus.PARTIALLY_FILLED,
                       updatedAt := now }),
            books :=
              if o.remainingSize - fillSize ≤ 0 then
                let b1 := remBook st.books (getOrderbookKey o) orderId
                if getLegacyOrderbookKey o ≠ getOrderbookKey o then
                  remBook b1 (getLegacyOrderbookKey o) orderId
                else b1
              else st.books }, true) := by
      unfold fillOrder
      rw [if_neg hf, h]
      simp only []
      rw [if_neg hterm, if_neg hlt]
    refine ⟨by rw [hres], ?_, ?_, ?_, by omega⟩
    · rw [hres]
      show (updateOrders st.orders orderId _).find? _ = _
      rw [find?_updateOrders st.orders orderId _ (by intro x; rfl)]
      unfold Store.getOrder at h
      rw [h, Option.map_some']
      congr 2
      by_cases hz : o.remainingSize - fillSize = 0
      · rw [if_pos hz, if_pos (hiff.mpr hz)]
      · rw [if_neg hz, if_neg (fun hc => hz (hiff.mp hc))]
    · intro hzero
      rw [hres]
      have hcond : o.remainingSize - fillSize ≤ 0 := by omega
      simp only [hcond, if_pos]
      by_cases hk : getLegacyOrderbookKey o ≠ getOrderbookKey o
      · rw [if_pos hk]
        refine ⟨fun hmem => ?_, not_mem_remBook _ _ _⟩
        exact not_mem_remBook _ _ _ (remBook_subset _ _ _ hmem)
      · rw [if_neg hk]
        rw [not_not] at hk
        rw [hk]
        exact ⟨not_mem_remBook _ _ _, not_mem_remBook _ _ _⟩
    · intro hnz
      rw [hres]
      have hcond : ¬o.remainingSize - fillSize ≤ 0 := by omega
      simp only [hcond, if_neg, if_false]

/-- C6 witness: the fill behavior at a concrete store holding an OPEN
order of size 10. -/
theorem fillOrder_spec_witness : FillOrderBehavior storeOpen "w1" 4 7 openOrder :=
  fillOrder_spec storeOpen "w1" 4 7 openOrder rfl

/-- C5 (amended): `fillOrder` and `expireOrder` treat FILLED, CANCELLED
and EXPIRED as absorbing; `cancelOrder` treats only FILLED and CANCELLED
as absorbing, and on an EXPIRED order returns `true` and transitions it to
CANCELLED. -/
theorem terminal_states_spec (st : Store) (orderId : String) (now : Int)
    (o : Order) (h : st.getOrder orderId = some o) :
    TerminalBehavior st orderId now o := by
  refine ⟨fun hterm => ⟨fun fillSize => ?_, ?_⟩, fun hterm => ?_, fun hexp => ?_⟩
  · unfold fillOrder
    by_cases hf : fillSize ≤ 0
    · simp [hf]
    · simp only [if_neg hf, h]
      rw [if_pos hterm]
  · unfold expireOrder
    rw [h]
    simp only []
    rw [if_pos hterm]
  · unfold cancelOrder
    rw [h]
    simp only []
    rw [if_pos hterm]
  · have hterm : ¬(o.status = OrderStatus.FILLED ∨ o.status = OrderStatus.CANCELLED) := by
      simp [hexp]
    have hres : cancelOrder st orderId now =
        ({ st with
            orders := updateOrders st.orders orderId (fun x =>
              { x with status := OrderStatus.CANCELLED, updatedAt := now }),
            books :=
              if getLegacyOrderbookKey o ≠ getOrderbookKey o then
                remBook (remBook st.books (getOrderbookKey o) orderId)
                  (getLegacyOrderbookKey o) orderId
              else remBook st.books (getOrderbookKey o) orderId }, true) := by
      unfold cancelOrder
      rw [h]
      simp only []
      rw [if_neg hterm]
    refine ⟨by rw [hres], ?_⟩
    rw [hres]
    show (updateOrders st.orders orderId _).find? _ = _
    rw [find?_updateOrders st.orders orderId _ (by intro x; rfl)]
    unfold Store.getOrder at h
    rw [h, Option.map_some']

/-- C5 witness: the terminal behavior at a concrete store holding one
EXPIRED order. -/
theorem terminal_states_spec_witness : TerminalBehavior storeExpired "e1" 5 expiredOrder :=
  terminal_states_spec storeExpired "e1" 5 expiredOrder rfl

/-- C5 counterexample: `cancelOrder` on an EXPIRED order returns `true`
and transitions it to CANCELLED, contradicting the claim that it returns
`false` and leaves the order unchanged. -/
theorem cancel_expired_counterexample :
    (cancelOrder storeExpired "e1" 5).2 = true ∧
    ((cancelOrder storeExpired "e1" 5).1.getOrder "e1").map Order.status =
      some OrderStatus.CANCELLED := by
  constructor <;> rfl

/-! ## Claims about the matching engine -/

/-- Membership through stable insertion. -/
theorem mem_insertSorted {α : Type} (le : α → α → Bool) (x a : α) :
    ∀ l : List α, a ∈ insertSorted le x l ↔ a = x ∨ a ∈ l
  | [] => by simp [insertSorted]
  | b :: bs => by
    simp only [insertSorted]
    split
    · simp [or_comm, or_assoc, eq_comm]
    · simp only [List.mem_cons, mem_insertSorted le x a bs]
      tauto

/-- Membership through the stable sort. -/
theorem mem_sortStable {α : Type} (le : α → α → Bool) (a : α) :
    ∀ l : List α, a ∈ sortStable le l ↔ a ∈ l
  | [] => Iff.rfl
  | b :: bs => by
    simp [sortStable, mem_insertSorted, mem_sortStable le a bs]

/-- Every trade the two-pointer walk produces takes its `price` and
`makerOrderId` from the sell-side head of the moment; the walk preserves
the link of every sell-list entry to a SELL order of the base list
(in-memory debits keep `orderId`, `price` and `side`). -/
theorem matchWalk_maker_link (market : Market) (base : List Order) :
    ∀ (fuel : Nat) (buys sells : List Order) (st : Store) (n : Nat) (now : Int),
      (∀ s ∈ sells, ∃ o ∈ base,
        o.side = OrderSide.SELL ∧ o.orderId = s.orderId ∧ o.price = s.price) →
      ∀ t ∈ (matchWalk market fuel buys sells st n now).1,
        ∃ o ∈ base,
          o.side = OrderSide.SELL ∧ o.orderId = t.makerOrderId ∧ o.price = t.price
  | 0, buys, sells, st, n, now => by
    intro _ t ht
    simp [matchWalk] at ht
  | fuel + 1, [], sells, st, n, now => by
    intro _ t ht
    simp [matchWalk] at ht
  | fuel + 1, b :: bs, [], st, n, now => by
    intro _ t ht
    simp [matchWalk] at ht
  | fuel + 1, b :: bs, s :: ss, st, n, now => by
    intro hinv t ht
    rw [matchWalk] at ht
    split at ht
    · simp at ht
    · simp only [List.mem_cons] at ht
      rcases ht with rfl | ht
      · exact hinv s (by simp)
      · have hs' : ∀ x ∈ ss, ∃ o ∈ base,
            o.side = OrderSide.SELL ∧ o.orderId = x.orderId ∧ o.price = x.price :=
          fun x hx => hinv x (by simp [hx])
        have hupd : ∃ o ∈ base, o.side = OrderSide.SELL ∧
            o.orderId = (updateOrderState s (min b.remainingSize s.remainingSize)).orderId ∧
            o.price = (updateOrderState s (min b.remainingSize s.remainingSize)).price := by
          simpa [updateOrderState] using hinv s (by simp)
        have hnext : ∀ x ∈ (if (updateOrderState s (min b.remainingSize s.remainingSize)).remainingSize ≤ 0
              then ss
              else updateOrderState s (min b.remainingSize s.remainingSize) :: ss), ∃ o ∈ base,
            o.side = OrderSide.SELL ∧ o.orderId = x.orderId ∧ o.price = x.price := by
          split
          · exact hs'
          · intro x hx
            rcases List.mem_cons.mp hx with rfl | hx
            · exact hupd
            · exact hs' x hx
        exact matchWalk_maker_link market base fuel _ _ _ _ _ hnext t ht

/-- C1 (amended): every trade produced by `matchMarket` executes at the
price of its matched sell order — the order recorded as `makerOrderId` is
a SELL order of the store and the trade's `price` equals that order's
`price`, regardless of which side is older. -/
theorem trade_price_is_sell_price (st : Store) (market : Market)
    (positionId : String) (now : Int) (t : Trade)
    (ht : t ∈ (matchMarket st market positionId now).1) :
    ∃ o ∈ st.orders,
      o.side = OrderSide.SELL ∧ o.orderId = t.makerOrderId ∧ o.price = t.price := by
  unfold matchMarket at ht
  refine matchWalk_maker_link market st.orders _ _ _ _ _ _ ?_ t ht
  intro s hs
  rw [mem_sortStable] at hs
  have hside : s.side = OrderSide.SELL := by
    have := List.mem_filter.mp hs
    simpa using this.2
  have hbase : s ∈ st.orders := by
    have h1 := (List.mem_filter.mp hs).1
    have h2 := (List.mem_filter.mp h1).1
    exact (List.mem_filter.mp h2).1
  exact ⟨s, hbase, hside, rfl, rfl⟩

/-- C1 witness: at the concrete older-buy book the single trade's maker is
the sell order `s1` at its price 650_000. -/
theorem trade_price_is_sell_price_witness :
    ∃ o ∈ storeOlderBuy.orders,
      o.side = OrderSide.SELL ∧
      o.orderId = (createTrade testMarket buyOld sellNew 650000 50 0).makerOrderId ∧
      o.price = (createTrade testMarket buyOld sellNew 650000 50 0).price :=
  trade_price_is_sell_price storeOlderBuy testMarket yesPos 10
    (createTrade testMarket buyOld sellNew 650000 50 0) (by decide)

/-- C1 counterexample: with the buy order older (t=1, price 700_000) than
the sell order (t=2, price 650_000), the trade executes at 650_000 — the
sell order's price, not the price of the older order. -/
theorem trade_price_counterexample :
    ((matchMarket storeOlderBuy testMarket yesPos 10).1.map
        (fun t => (t.price, t.makerOrderId, t.takerOrderId))) =
      [(650000, "s1", "b1")] ∧
    buyOld.createdAt < sellNew.createdAt ∧ buyOld.price = 700000 ∧
    (650000 : Int) ≠ 700000 := by
  refine ⟨by decide, by decide, by decide, by decide⟩

/-- C2 failing input: the MINT scenario — BUY YES at 600_000 × 100 and
BUY NO at 400_000 × 100 — produces no trade at all in either outcome's
book (the engine pairs a BUY only with a SELL, and both books have an
empty sell side), and leaves the store untouched; the spec expects one
MINT trade with both orders FILLED. -/
theorem mint_scenario_produces_no_trade :
    matchMarket storeMintScenario testMarket yesPos 10 = ([], storeMintScenario) ∧
    matchMarket storeMintScenario testMarket noPos 10 = ([], storeMintScenario) := by
  refine ⟨by decide, by decide⟩

/-- C3 (amended): the two-pointer walk ignores the results of its
`fillOrder` calls — the sequence of trades it creates is entirely
determined by the in-memory buy and sell lists, whatever the store the
fills run against (and whatever the clock), so a failed fill neither stops
the walk nor changes what is matched. -/
theorem matchWalk_trades_ignore_fill_results (market : Market) :
    ∀ (fuel : Nat) (buys sells : List Order) (st st' : Store) (n : Nat)
      (now now' : Int),
      (matchWalk market fuel buys sells st n now).1 =
        (matchWalk market fuel buys sells st' n now').1
  | 0, buys, sells, st, st', n, now, now' => rfl
  | fuel + 1, [], sells, st, st', n, now, now' => by simp [matchWalk]
  | fuel + 1, b :: bs, [], st, st', n, now, now' => by simp [matchWalk]
  | fuel + 1, b :: bs, s :: ss, st, st', n, now, now' => by
    rw [matchWalk, matchWalk]
    split
    · rfl
    · simp only []
      rw [matchWalk_trades_ignore_fill_results market fuel _ _
        (fillOrder (fillOrder st b.orderId (min b.remainingSize s.remainingSize) now).1
          s.orderId (min b.remainingSize s.remainingSize) now).1
        (fillOrder (fillOrder st' b.orderId (min b.remainingSize s.remainingSize) now').1
          s.orderId (min b.remainingSize s.remainingSize) now').1
        (n + 1) now now']

/-- C3 counterexample: at the concrete book whose first match has size 0
(a size-0 sell head), both `fillOrder` calls of the first match return
`false`, yet the walk does not abort: a second trade (100 @ 600_000) is
still created. -/
theorem failed_fill_does_not_abort :
    ((matchMarket storeFailedFill testMarket yesPos 10).1.map
        (fun t => (t.size, t.price, t.makerOrderId))) =
      [(0, 600000, "s0"), (100, 600000, "s1")] ∧
    (fillOrder storeFailedFill "b1" 0 10).2 = false ∧
    (fillOrder storeFailedFill "s0" 0 10).2 = false := by
  refine ⟨by decide, by decide, by decide⟩

/-! ## Claims about the settlement bridge -/

/-- Every successful `submitFillNormal` call targets `fill-order`. -/
theorem submitFillNormal_functionName (request : SettlementRequest)
    (call : ContractCall) (h : submitFillNormal request = Except.ok call) :
    call.functionName = "fill-order" := by
  unfold submitFillNormal at h
  simp only [bind, Except.bind] at h
  repeat' split at h
  all_goals first | (injection h with h2; rw [← h2]) | (injection h)

/-- Every successful `submitFillMerge` call targets `fill-order-merge`. -/
theorem submitFillMerge_functionName (request : SettlementRequest)
    (call : ContractCall) (h : submitFillMerge request = Except.ok call) :
    call.functionName = "fill-order-merge" := by
  unfold submitFillMerge at h
  simp only [bind, Except.bind] at h
  repeat' split at h
  all_goals first | (injection h with h2; rw [← h2]) | (injection h)

/-- C4 (amended): `submitFill` never dispatches `fill-order-mint`; a trade
whose `tradeType` is MINT is submitted through the NORMAL path, calling
`fill-order`. -/
theorem submitFill_dispatch (request : SettlementRequest) (call : ContractCall)
    (h : submitFill request = Except.ok call) :
    call.functionName ≠ "fill-order-mint" ∧
    (request.trade.tradeType = TradeType.MINT →
      call.functionName = "fill-order") := by
  unfold submitFill at h
  cases htt : request.trade.tradeType <;> rw [htt] at h
  · have := submitFillNormal_functionName request call h
    exact ⟨by rw [this]; decide, fun _ => this⟩
  · have := submitFillNormal_functionName request call h
    exact ⟨by rw [this]; decide, fun _ => this⟩
  · have := submitFillMerge_functionName request call h
    exact ⟨by rw [this]; decide, fun hmint => TradeType.noConfusion hmint⟩

set_option maxRecDepth 100000 in
/-- C4 witness: the dispatch behavior at the concrete MINT request. -/
theorem submitFill_dispatch_witness :
    mintRequestCall.functionName ≠ "fill-order-mint" ∧
    (mintRequest.trade.tradeType = TradeType.MINT →
      mintRequestCall.functionName = "fill-order") :=
  submitFill_dispatch mintRequest mintRequestCall rfl

set_option maxRecDepth 100000 in
/-- C4 counterexample: for the concrete MINT trade the bridge builds the
`fill-order` call — not `fill-order-mint`. -/
theorem mint_dispatches_fill_order :
    submitFill mintRequest = Except.ok mintRequestCall ∧
    mintRequestCall.functionName = "fill-order" ∧
    "fill-order" ≠ "fill-order-mint" := by
  refine ⟨rfl, by decide, by decide⟩

/-! ## Claims about the smart router -/

/-- C7 (amended): for the ask book
`[650_000×200, 660_000×150, 680_000×300]` and a MARKET BUY of 500 with
`maxSlippage = 5`, the plan takes `[(650_000,200),(660_000,150),
(680_000,150)]` with `averagePrice = 662_000`, `totalCost = 331_000_000`,
`slippage = 24/13 ≈ 1.85 %` and `feasible = true`; the same request with
`maxSlippage = 1` is infeasible with the slippage-exceeded reason. -/
theorem slippage_plan_eval :
    (planExecution slippageBook slippageRequest5).levels.map
        (fun l => (l.price, l.size)) =
      [(650000, 200), (660000, 150), (680000, 150)] ∧
    (planExecution slippageBook slippageRequest5).averagePrice = 662000 ∧
    (planExecution slippageBook slippageRequest5).totalCost = 331000000 ∧
    (planExecution slippageBook slippageRequest5).slippage = 24 / 13 ∧
    (planExecution slippageBook slippageRequest5).feasible = true ∧
    (planExecution slippageBook slippageRequest1).feasible = false ∧
    (planExecution slippageBook slippageRequest1).reason =
      some (PlanReason.slippageExceedsMax (24 / 13) 1) := by
  norm_num [planExecution, planLevelsWalk, sortStable, insertSorted,
    slippageExceeded, limitPriceStops, createInfeasiblePlan, slippageBook,
    slippageRequest5, slippageRequest1]

/-- C7 counterexample: the plan's average price is 662_000 micro-sats, not
the 664_000 the claim states (and its slippage is 24/13 % ≈ 1.85 %, not
≈ 2.15 %). -/
theorem slippage_plan_average_counterexample :
    (planExecution slippageBook slippageRequest5).averagePrice = 662000 ∧
    (662000 : Rat) ≠ 664000 ∧
    (planExecution slippageBook slippageRequest5).slippage = 24 / 13 ∧
    ¬((2 : Rat) < (planExecution slippageBook slippageRequest5).slippage) := by
  refine ⟨?_, by norm_num, ?_, ?_⟩ <;>
    norm_num [planExecution, planLevelsWalk, sortStable, insertSorted,
      slippageExceeded, limitPriceStops, createInfeasiblePlan, slippageBook,
      slippageRequest5]

/-! ## Claims about order hashing and placement -/

/-- A per-level MARKET salt is never a numeric string: it contains the
`_level_` infix. -/
theorem isNumericString_marketLevelSalt (s : String) (now levelPrice : Int) :
    isNumericString (marketLevelSalt s now levelPrice) = false := by
  have hmem : '_' ∈ (marketLevelSalt s now levelPrice).data := by
    unfold marketLevelSalt
    rw [String.data_append, String.data_append]
    refine List.mem_append.mpr (Or.inl (List.mem_append.mpr (Or.inr ?_)))
    decide
  have hall : (marketLevelSalt s now levelPrice).data.all Char.isDigit = false := by
    rw [List.all_eq_false]
    exact ⟨'_', hmem, by decide⟩
  unfold isNumericString
  rw [hall, Bool.and_false]

/-- C8 (amended): for a LIMIT order the hash round-trips — recomputing the
digest from the stored record's fields reproduces exactly the digest the
signature was verified against at acceptance; for the per-level orders of
a MARKET placement the round trip fails, because the stored salt carries
the non-numeric `_level_` suffix (and the stored size is the level's, not
the signed total), so recomputing from the stored fields is rejected. -/
theorem order_hash_round_trip :
    (∀ (st : Store) (req : PlaceOrderRequest) (orderId : String) (now : Int)
        (st' : Store) (o : Order),
      placeLimitOrder st req orderId now = Except.ok (st', o) →
      ∃ p digest, validateLimitPrice req.price = Except.ok p ∧
        limitAcceptanceHash req p = Except.ok digest ∧
        recomputeStoredHash o = Except.ok digest) ∧
    (∀ (st : Store) (req : PlaceOrderRequest) (levelPrice levelSize : Int)
        (orderId : String) (now now2 : Int),
      recomputeStoredHash
          ((addOrder st (marketLevelOrderInput req levelPrice levelSize now)
            orderId now2).2) =
        Except.error "Salt must be a numeric string") := by
  constructor
  · intro st req orderId now st' o h
    unfold placeLimitOrder at h
    simp only [bind, Except.bind] at h
    split at h
    · cases h
    · rename_i p hv
      split at h
      · cases h
      · rename_i digest hh
        split at h
        · cases h
        · injection h with h2
          have ho : o = (addOrder st
              { maker := req.maker, marketId := req.marketId,
                conditionId := req.conditionId,
                makerPositionId := req.makerPositionId,
                takerPositionId := req.takerPositionId, side := req.side,
                price := p, size := req.size, salt := req.salt,
                expiration := req.expiration, signature := some req.signature,
                publicKey := some req.publicKey } orderId now).2 :=
            (congrArg Prod.snd h2).symm
          refine ⟨p, digest, hv, hh, ?_⟩
          rw [ho]
          exact hh
  · intro st req levelPrice levelSize orderId now now2
    show computeOrderHash _ _ _ _ _ _ (marketLevelSalt req.salt now levelPrice) _ = _
    unfold computeOrderHash
    rw [if_pos]
    simp [isNumericString_marketLevelSalt]

/-- C8 witness: the LIMIT round trip at the concrete signed request, and
the failing recomputation for a concrete MARKET level order. -/
theorem order_hash_round_trip_witness :
    (∃ p digest, validateLimitPrice limitPlaceRequest.price = Except.ok p ∧
      limitAcceptanceHash limitPlaceRequest p = Except.ok digest ∧
      recomputeStoredHash
          ((placeLimitOrder emptyStore limitPlaceRequest "o1" 5).toOption.get
            (by decide)).2 =
        Except.ok digest) ∧
    recomputeStoredHash
        ((addOrder emptyStore
          (marketLevelOrderInput marketPlaceRequest 650000 200 99) "lvl1" 99).2) =
      Except.error "Salt must be a numeric string" :=
  ⟨order_hash_round_trip.1 emptyStore limitPlaceRequest "o1" 5 _ _ rfl,
   order_hash_round_trip.2 emptyStore marketPlaceRequest 650000 200 "lvl1" 99 99⟩

/-- C8 counterexample: for the concrete MARKET placement (salt `"12345"`,
total size 500, average price 662_000), acceptance verified the signature
against a digest that `computeOrderHash` produces, but recomputing the
digest from the stored level order (salt `"12345_level_650000"`, size 200)
fails — the stored fields do not reproduce the verified digest. -/
theorem market_level_hash_counterexample :
    (∃ digest, marketAcceptanceHash marketPlaceRequest 662000 = Except.ok digest) ∧
    recomputeStoredHash
        ((addOrder emptyStore
          (marketLevelOrderInput marketPlaceRequest 650000 200 99) "lvl1" 99).2) =
      Except.error "Salt must be a numeric string" := by
  refine ⟨⟨_, rfl⟩, order_hash_round_trip.2 emptyStore marketPlaceRequest 650000 200 "lvl1" 99 99⟩

/-- C9 (amended): the LIMIT price validation accepts every non-negative
integer price — it rejects only negative and non-integer values. -/
theorem limit_price_validation (p : Rat) :
    validateLimitPrice p = Except.ok p.num ↔ (0 ≤ p ∧ p.isInt = true) := by
  unfold validateLimitPrice
  by_cases h0 : p < 0
  · rw [if_pos h0]
    constructor
    · intro h; cases h
    · intro ⟨h1, _⟩; exact absurd h0 (not_lt.mpr h1)
  · rw [if_neg h0]
    by_cases hint : p.isInt
    · simp [hint, not_lt.mp h0]
    · simp [hint]

/-- C9 witness: price 0 is accepted by the validation. -/
theorem limit_price_validation_witness :
    validateLimitPrice 0 = Except.ok (0 : Rat).num ↔
      (0 ≤ (0 : Rat) ∧ (0 : Rat).isInt = true) :=
  limit_price_validation 0

/-- C9 counterexample: LIMIT price 0 and LIMIT price `PRICE_SCALE`
(1_000_000) are both accepted — the placement succeeds and books the
order — contradicting the claim that both are rejected. -/
theorem boundary_prices_accepted :
    (∃ st' o, placeLimitOrder emptyStore limitPriceZeroRequest "z1" 7 =
        Except.ok (st', o) ∧
      o.price = 0 ∧ o.status = OrderStatus.OPEN ∧
      (getOrderbookKey o, "z1") ∈ st'.books) ∧
    (∃ st' o, placeLimitOrder emptyStore limitPriceScaleRequest "z2" 7 =
        Except.ok (st', o) ∧
      o.price = 1000000 ∧ o.status = OrderStatus.OPEN ∧
      (getOrderbookKey o, "z2") ∈ st'.books) := by
  refine ⟨⟨_, _, rfl, rfl, rfl, by decide⟩, ⟨_, _, rfl, rfl, rfl, by decide⟩⟩

/-! ## Claims about the block-height monitor -/

/-- The ids `expireSweep` calls `expireOrder` on are exactly the ids of
the snapshot's resting orders with `expiration < currentBlockHeight`; the
list does not depend on the threaded store. -/
theorem expireSweep_calls (currentBlockHeight now : Int) :
    ∀ (orders : List Order) (st : Store),
      (expireSweep st orders currentBlockHeight now).2 =
        (orders.filter (fun o =>
          (o.status = OrderStatus.OPEN ∨ o.status = OrderStatus.PARTIALLY_FILLED) ∧
          o.expiration < currentBlockHeight)).map Order.orderId
  | [], st => rfl
  | o :: rest, st => by
    unfold expireSweep
    split
    · rename_i hcond
      rw [List.filter_cons_of_pos (by simpa using hcond)]
      simp only [List.map]
      rw [expireSweep_calls currentBlockHeight now rest _]
    · rename_i hcond
      rw [List.filter_cons_of_neg (by simpa using hcond)]
      rw [expireSweep_calls currentBlockHeight now rest _]

/-- Expiring one id keeps every record whose id differs from the expired
one. -/
theorem expireOrder_preserves_other (st : Store) (orderId : String)
    (now : Int) (o : Order) (ho : o ∈ st.orders)
    (hne : o.orderId ≠ orderId) : o ∈ (expireOrder st orderId now).1.orders := by
  unfold expireOrder
  cases hg : st.getOrder orderId with
  | none => simp only [hg]; exact ho
  | some x =>
    simp only [hg]
    split
    · exact ho
    · exact mem_updateOrders_of_ne _ _ _ _ ho hne

/-- Expiring one id keeps the sequence of order ids. -/
theorem expireOrder_orderIds (st : Store) (orderId : String) (now : Int) :
    ((expireOrder st orderId now).1.orders).map Order.orderId =
      st.orders.map Order.orderId := by
  unfold expireOrder
  cases hg : st.getOrder orderId with
  | none => simp only [hg]
  | some x =>
    simp only [hg]
    split
    · rfl
    · exact map_orderId_updateOrders _ _ _ (fun o => rfl)

/-- A sweep over a snapshot whose ids all differ from `o.orderId` keeps
`o`'s record. -/
theorem expireSweep_preserves_mem (currentBlockHeight now : Int) (o : Order) :
    ∀ (orders : List Order) (st : Store), o ∈ st.orders →
      (∀ x ∈ orders, x.orderId ≠ o.orderId) →
      o ∈ (expireSweep st orders currentBlockHeight now).1.orders
  | [], st, ho, _ => ho
  | x :: rest, st, ho, hne => by
    unfold expireSweep
    split
    · exact expireSweep_preserves_mem currentBlockHeight now o rest _
        (expireOrder_preserves_other st x.orderId now o ho
          (fun hc => hne x (by simp) hc.symm))
        (fun y hy => hne y (by simp [hy]))
    · exact expireSweep_preserves_mem currentBlockHeight now o rest st ho
        (fun y hy => hne y (by simp [hy]))

/-- A sweep keeps the sequence of order ids. -/
theorem expireSweep_orderIds (currentBlockHeight now : Int) :
    ∀ (orders : List Order) (st : Store),
      ((expireSweep st orders currentBlockHeight now).1.orders).map Order.orderId =
        st.orders.map Order.orderId
  | [], st => rfl
  | x :: rest, st => by
    unfold expireSweep
    split
    · rw [expireSweep_orderIds currentBlockHeight now rest _,
        expireOrder_orderIds]
    · rw [expireSweep_orderIds currentBlockHeight now rest st]

/-- C10: `checkExpiredOrders` expires orders with no expiration set — for
every resting order (`OPEN` or `PARTIALLY_FILLED`) with `expiration = 0`
in a non-resolved market, once the cached block height is positive the
sweep calls `expireOrder` on it, because the test is the unguarded
comparison `expiration < currentBlockHeight`. -/
theorem monitor_expires_unset_expiration :
    ∀ (markets : List Market) (st : Store) (currentBlockHeight now : Int)
      (m : Market) (o : Order),
      (st.orders.map Order.orderId).Nodup →
      m ∈ markets → m.resolved = false → o ∈ st.orders →
      o.marketId = m.marketId →
      (o.status = OrderStatus.OPEN ∨ o.status = OrderStatus.PARTIALLY_FILLED) →
      o.expiration = 0 → 0 < currentBlockHeight →
      o.orderId ∈ (checkExpiredOrders st markets currentBlockHeight now).2
  | [], st, h, now, m, o => by
    intro _ hm
    cases hm
  | m' :: rest, st, h, now, m, o => by
    intro hnodup hm hres ho hmar hstat hexp hh
    unfold checkExpiredOrders
    by_cases hres' : m'.resolved
    · rw [if_pos hres']
      have hm' : m ∈ rest := by
        rcases List.mem_cons.mp hm with rfl | hmr
        · rw [hres] at hres'; cases hres'
        · exact hmr
      exact monitor_expires_unset_expiration rest st h now m o
        hnodup hm' hres ho hmar hstat hexp hh
    · rw [if_neg hres']
      show o.orderId ∈
        (expireSweep st (st.getMarketOrders m'.marketId) h now).2 ++
          (checkExpiredOrders (expireSweep st (st.getMarketOrders m'.marketId) h now).1
            rest h now).2
      by_cases hmm : o.marketId = m'.marketId
      · refine List.mem_append.mpr (Or.inl ?_)
        rw [expireSweep_calls]
        refine List.mem_map.mpr ⟨o, List.mem_filter.mpr ⟨?_, ?_⟩, rfl⟩
        · unfold Store.getMarketOrders
          exact List.mem_filter.mpr ⟨ho, by simp [hmm]⟩
        · simp only [decide_eq_true_eq]
          exact ⟨hstat, by omega⟩
      · have hm' : m ∈ rest := by
          rcases List.mem_cons.mp hm with rfl | hmr
          · exact absurd hmar hmm
          · exact hmr
        have hdist : ∀ x ∈ st.getMarketOrders m'.marketId,
            x.orderId ≠ o.orderId := by
          intro x hx heq
          have hxo : x ∈ st.orders := (List.mem_filter.mp hx).1
          have hxm : x.marketId = m'.marketId := by
            simpa using (List.mem_filter.mp hx).2
          have hxeq : x = o :=
            List.inj_on_of_nodup_map hnodup hxo ho heq
          rw [hxeq] at hxm
          exact hmm hxm
        have ho' : o ∈ (expireSweep st (st.getMarketOrders m'.marketId) h now).1.orders :=
          expireSweep_preserves_mem h now o _ st ho hdist
        have hnodup' :
            (((expireSweep st (st.getMarketOrders m'.marketId) h now).1.orders).map
              Order.orderId).Nodup := by
          rw [expireSweep_orderIds]
          exact hnodup
        exact List.mem_append.mpr (Or.inr
          (monitor_expires_unset_expiration rest _ h now m o
            hnodup' hm' hres ho' hmar hstat hexp hh))

/-- C10 witness: the concrete resting order with `expiration = 0` is
expired once the cached height is 1. -/
theorem monitor_expires_unset_expiration_witness :
    ("x1" : String) ∈ (checkExpiredOrders storeNoExpiration [testMarket] 1 50).2 :=
  monitor_expires_unset_expiration [testMarket] storeNoExpiration 1 50
    testMarket noExpirationOrder (by decide) (by decide) (by decide)
    (by decide) (by decide) (by decide) (by decide) (by decide)

end StackCast
